import Mathlib

/-!
Shallow embedding of the aibot repository's conversation-orchestration and
job-pipeline layer (src/bot.py, src/worker_tasks.py, src/models.py,
src/utils.py), together with proofs settling the frozen claims about it.

Modelling conventions:
- Machine-level concerns are abstracted as the spec directs: the Telegram
  transport, the Ollama LLM call, the gTTS synthesizer, the pydub decoder and
  the speech recognizer are black-box function parameters.
- Audio byte strings are `List Nat`; timestamps are `Nat` ticks; the float
  TTS duration (`len(audio) / 1000.0` seconds) is an exact rational `ℚ`.
- RQ's polling loop (`wait_for_job_result`, a 0.1 s-interval spin on
  `job.result is not None`) is modelled with one tick per poll: a job handle
  is a stream `Nat → Option α` giving the result slot's content at each poll
  tick, and a `timeout`-second wait makes `timeout * 10` polls.
- The side effects of a handler (queue enqueues, Telegram sends, database
  writes) are reified as action lists, and the message store is threaded
  explicitly as a `List Message`.
-/

namespace Aibot

/-- Database model `User` (bot.py lines 37-40 / models.py lines 8-17):
primary id, unique telegram id, mutable system prompt. -/
structure User where
  id : Nat
  telegram_id : Nat
  system_prompt : String
deriving DecidableEq

/-- Database model `Message` (models.py lines 22-29): owner, content,
timestamp, directionality flag and logical-deletion (`is_reset`) flag.
The bot.py revision's own `Message` (lines 43-48) lacks `is_reset`; its
queries simply never mention the flag, which the embedding reproduces by
carrying the field and never filtering on it. -/
structure Message where
  user_id : Nat
  content : String
  timestamp : Nat
  is_from_user : Bool
  is_reset : Bool
deriving DecidableEq

/-- Job payload `MessageRequest` (worker_tasks.py lines 32-37). The bot.py
revision constructs it as `MessageRequest(user_id=user.id, content=...)`
without audio/chat/message fields (bot.py lines 143, 217); those are
embedded as `false` / `0`. -/
structure MessageRequest where
  user_id : Nat
  content : String
  is_audio : Bool
  chat_id : Nat
  message_id : Nat
deriving DecidableEq

/-- Job payload `TTSRequest` (worker_tasks.py lines 40-41). -/
structure TTSRequest where
  text : String
deriving DecidableEq

/-- Job result `TTSResponse` (worker_tasks.py lines 44-46): synthesized audio
bytes and the decoded duration in seconds. -/
structure TTSResponse where
  audio_data : List Nat
  duration : ℚ
deriving DecidableEq

/-- Job payload `STTRequest` (worker_tasks.py lines 49-53). -/
structure STTRequest where
  audio_file : List Nat
  chat_id : Nat
  message_id : Nat
  forwarded : Bool
deriving DecidableEq

/-- One role-tagged entry of the chat prompt sent to the LLM backend
(the dicts built in worker_tasks.py lines 73-79). -/
structure ChatMsg where
  role : String
  content : String
deriving DecidableEq

/-- `save_message` (bot.py lines 83-88 / utils.py lines 7-12): append one row;
`is_reset` takes its model default `false`. -/
def save_message (store : List Message) (user_id : Nat) (content : String)
    (is_from_user : Bool) (ts : Nat) : List Message :=
  store ++ [⟨user_id, content, ts, is_from_user, false⟩]

/-- The `ORDER BY timestamp DESC` relation of the `get_recent_messages`
query: newer (or equal) timestamp first. -/
def tsGe (a b : Message) : Prop := b.timestamp ≤ a.timestamp

instance : DecidableRel tsGe := fun a b =>
  inferInstanceAs (Decidable (b.timestamp ≤ a.timestamp))

instance : IsTotal Message tsGe := ⟨fun a b => le_total b.timestamp a.timestamp⟩

instance : IsTrans Message tsGe := ⟨fun _ _ _ h1 h2 => le_trans h2 h1⟩

/-- `get_recent_messages` (bot.py lines 91-100): select the user's rows,
order by timestamp descending, take the first `limit`. The query has no
`is_reset` condition and no lower bound on `timestamp`. -/
def get_recent_messages (store : List Message) (user_id : Nat) (limit : Nat) :
    List Message :=
  (List.insertionSort tsGe (store.filter fun m => m.user_id == user_id)).take limit

/-- The spec's ConversationContext: the recent messages reversed to
oldest-to-newest order, exactly as both handlers iterate
`reversed(recent_messages)` (bot.py lines 138-141 and 212-215). -/
def conversationContext (store : List Message) (user_id : Nat) (limit : Nat) :
    List Message :=
  (get_recent_messages store user_id limit).reverse

/-- The `f"{'User' if msg.is_from_user else 'Assistant'}: {msg.content}"`
formatting of a context entry (bot.py line 139). -/
def fmtMsg (m : Message) : String :=
  (if m.is_from_user then "User: " else "Assistant: ") ++ m.content

/-- The polling loop body of `wait_for_job_result` (bot.py lines 104-108):
check the result slot at tick `i`; with fuel left, move to the next tick,
otherwise time out. -/
def pollFrom {α : Type} (job : Nat → Option α) (i : Nat) :
    Nat → Except String α
  | 0 => Except.error "Job result timeout"
  | fuel + 1 =>
    match job i with
    | some r => Except.ok r
    | none => pollFrom job (i + 1) fuel

/-- `wait_for_job_result` (bot.py lines 103-109): poll the result slot every
0.1 s until populated, raising `TimeoutError("Job result timeout")` once
`timeout` seconds have elapsed; one tick per poll, so `timeout * 10` polls. -/
def wait_for_job_result {α : Type} (job : Nat → Option α) (timeout : Nat) :
    Except String α :=
  pollFrom job 0 (timeout * 10)

/-- The fixed apology `handle_text` / `handle_voice` substitute when the
conversation job times out (bot.py lines 152, 226). -/
def apology_conv : String := "Sorry, I couldn't process your message in time."

/-- The fixed apology `handle_voice` substitutes for the transcript when the
STT job times out (bot.py line 204). -/
def stt_apology : String := "Sorry, I couldn't transcribe your voice message in time."

/-- The fallback text `handle_voice` sends when no voice reply could be
generated (bot.py lines 261-263). -/
def voice_fallback_msg : String :=
  "Sorry, I couldn't generate the voice message. Here's the text response instead."

/-- Observable orchestrator effects of one turn, in program order. -/
inductive BotAction where
  | enqueueDefault (req : MessageRequest) (system_prompt : String)
      (context_messages : List String)
  | enqueueHigh (text : String)
  | enqueueGpu (audio : List Nat)
  | replyText (text : String)
  | replyVoice (audio : List Nat) (duration : Int)
deriving DecidableEq

/-- The `MessageRequest(user_id=user.id, content=update.message.text)` built
by `handle_text` (bot.py line 143): the internal database id, not the
telegram id, fills `user_id`; no chat/message ids are passed. -/
def handle_text_request (user : User) (text : String) : MessageRequest :=
  ⟨user.id, text, false, 0, 0⟩

/-- `handle_text` (bot.py lines 132-187): persist the inbound text, build the
context, enqueue the conversation job, wait (substituting `apology_conv` on
timeout), persist and send the response, then enqueue TTS, wait, and send the
voice reply if one arrived (on TTS failure only a warning is logged). Returns
the action trace and the final message store. -/
def handle_text (store : List Message) (user : User) (text : String) (now : Nat)
    (convJob : Nat → Option String) (ttsJob : Nat → Option TTSResponse)
    (timeout : Nat) : List BotAction × List Message :=
  let store1 := save_message store user.id text true now
  let context_messages := (conversationContext store1 user.id 5).map fmtMsg
  let req := handle_text_request user text
  let response :=
    match wait_for_job_result convJob timeout with
    | Except.ok r => r
    | Except.error _ => apology_conv
  let store2 := save_message store1 user.id response false now
  let voiceActs :=
    match wait_for_job_result ttsJob timeout with
    | Except.ok r => [BotAction.replyVoice r.audio_data r.duration.floor]
    | Except.error _ => []
  (BotAction.enqueueDefault req user.system_prompt context_messages ::
     BotAction.replyText response :: BotAction.enqueueHigh response :: voiceActs,
   store2)

/-- `handle_voice` (bot.py lines 190-263): enqueue the STT job, wait
(substituting `stt_apology` for the transcript on timeout), then run the same
pipeline as `handle_text` on the transcript — note the turn continues after an
STT timeout — finishing with a fallback text when no voice reply arrived. -/
def handle_voice (store : List Message) (user : User) (audio : List Nat)
    (now : Nat) (sttJob : Nat → Option String) (convJob : Nat → Option String)
    (ttsJob : Nat → Option TTSResponse) (timeout : Nat) :
    List BotAction × List Message :=
  let transcribed :=
    match wait_for_job_result sttJob timeout with
    | Except.ok t => t
    | Except.error _ => stt_apology
  let store1 := save_message store user.id transcribed true now
  let context_messages := (conversationContext store1 user.id 5).map fmtMsg
  let req : MessageRequest := ⟨user.id, transcribed, false, 0, 0⟩
  let response :=
    match wait_for_job_result convJob timeout with
    | Except.ok r => r
    | Except.error _ => apology_conv
  let store2 := save_message store1 user.id response false now
  let tailActs :=
    match wait_for_job_result ttsJob timeout with
    | Except.ok r => [BotAction.replyVoice r.audio_data r.duration.floor]
    | Except.error _ => [BotAction.replyText voice_fallback_msg]
  (BotAction.enqueueGpu audio ::
     BotAction.enqueueDefault req user.system_prompt context_messages ::
     BotAction.replyText response :: BotAction.enqueueHigh response :: tailActs,
   store2)

/-- Whether an action enqueues a conversation job on the default queue. -/
def isConvEnqueue : BotAction → Bool
  | BotAction.enqueueDefault _ _ _ => true
  | _ => false

/-- How many conversation jobs a turn enqueued (retries would make this
exceed 1). -/
def countConvEnqueues (l : List BotAction) : Nat :=
  (l.filter isConvEnqueue).length

/-- The text the user is shown for the turn: payload of the first
`replyText` action. -/
def textReply : List BotAction → Option String
  | [] => none
  | BotAction.replyText s :: _ => some s
  | BotAction.enqueueDefault _ _ _ :: rest => textReply rest
  | BotAction.enqueueHigh _ :: rest => textReply rest
  | BotAction.enqueueGpu _ :: rest => textReply rest
  | BotAction.replyVoice _ _ :: rest => textReply rest

/-- `set_system_prompt` (bot.py lines 120-128): join the command arguments
with spaces — the empty string when there are none — store that as the user's
prompt, and reply with the update notice. -/
def set_system_prompt (user : User) (args : List String) : User × String :=
  let new_prompt := String.intercalate " " args
  (⟨user.id, user.telegram_id, new_prompt⟩,
   "System prompt updated to: " ++ new_prompt)

/-- The new-input context entry `_process_message` appends (worker_tasks.py
lines 66-71): a specially labeled transcription turn when `is_audio`, a plain
user turn otherwise. -/
def newInputEntry (request : MessageRequest) : String :=
  if request.is_audio then
    "User: [The following is a transcription of an audio message from the user] "
      ++ request.content
  else
    "User: " ++ request.content

/-- The prompt assembly of `_process_message` (worker_tasks.py lines 66-79):
append the new input to the context entries, then emit one system entry
followed by the entries with roles alternating by position index
(`"user" if i % 2 == 0 else "assistant"`). -/
def assembleMessages (request : MessageRequest) (system_prompt : String)
    (context_messages : List String) : List ChatMsg :=
  let ctx := context_messages ++ [newInputEntry request]
  ⟨"system", system_prompt⟩ ::
    ctx.enum.map fun p =>
      ⟨if p.1 % 2 = 0 then "user" else "assistant", p.2⟩

/-- `text_to_speech` (worker_tasks.py lines 160-178): run the synthesizer
(`gTTS`, the black-box `synth`) on the request text, decode the produced
audio to its length in milliseconds (`AudioSegment.from_mp3`, the black-box
`decodeMs`), and return the audio with `duration = len(audio) / 1000.0`. -/
def text_to_speech (synth : String → List Nat) (decodeMs : List Nat → Nat)
    (request : TTSRequest) : TTSResponse :=
  let audio := synth request.text
  ⟨audio, (decodeMs audio : ℚ) / 1000⟩

/-- The TTS stage of `_process_message` (worker_tasks.py lines 126-146):
empty response text skips synthesis entirely (only a warning is logged);
otherwise `text_to_speech` runs. -/
def ttsStage (synth : String → List Nat) (decodeMs : List Nat → Nat)
    (response_text : String) : Option TTSResponse :=
  if response_text = "" then none
  else some (text_to_speech synth decodeMs ⟨response_text⟩)

/-- Observable worker effects, in program order. -/
inductive WorkerAction where
  | saveProcessingTime (user_id : Nat) (operation : String)
  | saveMessage (user_id : Nat) (content : String) (is_from_user : Bool)
  | sendMessage (chat_id : Nat) (text : String)
  | sendVoice (chat_id : Nat) (audio : List Nat) (duration : ℚ)
deriving DecidableEq

/-- A worker execution: its effect trace and the Python return value that RQ
would store in the job's result slot. -/
structure WorkerRun where
  actions : List WorkerAction
  ret : Option String
deriving DecidableEq

/-- The `response_with_time` string (worker_tasks.py lines 96-98); the
elapsed-time rendering is the opaque `ptime`. -/
def response_with_time (response_text ptime : String) : String :=
  response_text ++ "\n\nTotal processing time: " ++ ptime ++ " seconds"

/-- `process_message` / `_process_message` (worker_tasks.py lines 60-157):
assemble the prompt, call the LLM backend (black-box `ollamaF`), persist the
reply only when a `User` row with `telegram_id == request.user_id` exists
(the `.first` lookup is `List.find?`), send the text reply, run the TTS stage
unless the reply is empty, and record per-step latencies. Both the inner
coroutine and the `process_message` wrapper return `None`, so `ret = none` is
what RQ stores as the job result. -/
def process_message (table : List User) (ollamaF : List ChatMsg → String)
    (synth : String → List Nat) (decodeMs : List Nat → Nat)
    (request : MessageRequest) (system_prompt : String)
    (context_messages : List String) (ptime : String) : WorkerRun :=
  let messages := assembleMessages request system_prompt context_messages
  let response_text := ollamaF messages
  let dbActs :=
    match table.find? (fun u => u.telegram_id == request.user_id) with
    | some u => [WorkerAction.saveMessage u.id response_text false]
    | none => []
  let ttsActs :=
    match ttsStage synth decodeMs response_text with
    | none => []
    | some r =>
      [WorkerAction.saveProcessingTime request.user_id "text_to_speech",
       WorkerAction.sendVoice request.chat_id r.audio_data r.duration,
       WorkerAction.saveProcessingTime request.user_id "send_voice_response"]
  ⟨WorkerAction.saveProcessingTime request.user_id "ollama_response" ::
     dbActs ++
     (WorkerAction.saveProcessingTime request.user_id "database_operation" ::
      WorkerAction.sendMessage request.chat_id
        (response_with_time response_text ptime) ::
      WorkerAction.saveProcessingTime request.user_id "send_text_response" ::
      ttsActs ++
      [WorkerAction.saveProcessingTime request.user_id "total_processing"]),
   none⟩

/-- An RQ job handle's result slot over poll ticks: empty until the job
finishes at tick `doneAt`, thereafter the task function's return value
(itself `None` for a task that returns nothing). -/
def jobResultStream (ret : Option String) (doneAt : Nat) : Nat → Option String :=
  fun i => if doneAt ≤ i then ret else none

/-- Outcome of `convert_ogg_to_wav` (worker_tasks.py lines 181-193):
either the WAV bytes or the exception of a failed decode. -/
inductive ConvertResult where
  | ok (wav : List Nat)
  | err
deriving DecidableEq

/-- Outcome of reading the WAV into `sr.AudioFile` (worker_tasks.py
lines 225-236): the recorded audio or a `ValueError`. -/
inductive ReadResult where
  | ok (audio : List Nat)
  | valueError
deriving DecidableEq

/-- Outcome of `recognizer.recognize_whisper` (worker_tasks.py lines
238-284): a transcript, an `UnknownValueError`, or a `RequestError`
(backend unreachable). -/
inductive RecognizeResult where
  | ok (text : String)
  | unknownValue
  | requestError
deriving DecidableEq

/-- Observable effects of the STT worker, in program order. -/
inductive SttAction where
  | saveProcessingTime (chat_id : Nat) (operation : String)
  | sendMessage (chat_id : Nat) (text : String)
  | processMessage (req : MessageRequest)
deriving DecidableEq

/-- Message sent on Ogg-to-WAV decode failure (worker_tasks.py line 217). -/
def decode_error_msg : String := "Sorry, there was an error processing the audio."

/-- Message sent on `ValueError` while reading the WAV (worker_tasks.py
line 233). -/
def read_error_msg : String := "Sorry, there was an error reading the audio file."

/-- Message sent on `UnknownValueError` (worker_tasks.py line 275). -/
def unknown_audio_msg : String := "Sorry, I couldn't understand the audio."

/-- Message sent on `RequestError` (worker_tasks.py line 282) — the same
string literal as `decode_error_msg`. -/
def request_error_msg : String := "Sorry, there was an error processing the audio."

/-- The transcript content built for the follow-up `MessageRequest`
(worker_tasks.py lines 258-260); the branches are as in the source, where the
`forwarded` flag selects the "from user" label. -/
def transcript_content (forwarded : Bool) (text : String) : String :=
  if forwarded then "Transcribed audio from user: " ++ text
  else "Transcribed forwarded audio: " ++ text

/-- `speech_to_text` / `_speech_to_text` (worker_tasks.py lines 196-289):
convert Ogg to WAV (abort with `decode_error_msg` on failure, before any
inference), read the WAV (abort with `read_error_msg` on `ValueError`), then
recognize — a transcript flows into `_process_message`, while the two engine
failures send their respective messages. -/
def speech_to_text (convert : List Nat → ConvertResult)
    (readAudio : List Nat → ReadResult)
    (recognize : List Nat → RecognizeResult) (req : STTRequest) :
    List SttAction :=
  match convert req.audio_file with
  | ConvertResult.err => [SttAction.sendMessage req.chat_id decode_error_msg]
  | ConvertResult.ok wav =>
    SttAction.saveProcessingTime req.chat_id "audio_conversion" ::
      match readAudio wav with
      | ReadResult.valueError => [SttAction.sendMessage req.chat_id read_error_msg]
      | ReadResult.ok audio =>
        match recognize audio with
        | RecognizeResult.ok text =>
          [SttAction.saveProcessingTime req.chat_id "speech_to_text",
           SttAction.saveProcessingTime req.chat_id "total_stt_processing",
           SttAction.processMessage
             ⟨req.chat_id, transcript_content req.forwarded text, true,
              req.chat_id, req.message_id⟩]
        | RecognizeResult.unknownValue =>
          [SttAction.sendMessage req.chat_id unknown_audio_msg]
        | RecognizeResult.requestError =>
          [SttAction.sendMessage req.chat_id request_error_msg]

/-! Concrete fixtures used by witnesses and counterexamples. -/

/-- A job stream whose result slot is never populated. -/
def noneStream : Nat → Option String := fun _ => none

/-- A TTS job stream whose result slot is never populated. -/
def noneTts : Nat → Option TTSResponse := fun _ => none

/-- A concrete user. -/
def u1 : User := ⟨1, 42, "You are a helpful assistant."⟩

/-- A concrete user whose stored prompt is `"abc"`. -/
def u7 : User := ⟨1, 42, "abc"⟩

/-- A store holding one reset message with timestamp 0. -/
def cstore3 : List Message := [⟨1, "old", 0, true, true⟩]

/-- A store holding one message of user 1 and one of user 2. -/
def store8 : List Message := [⟨1, "a", 0, true, false⟩, ⟨2, "b", 1, true, false⟩]

/-- A concrete synthesizer producing three bytes for any text. -/
def synth1 : String → List Nat := fun _ => [1, 2, 3]

/-- A concrete decoder: 100 ms per byte. -/
def decode1 : List Nat → Nat := fun l => 100 * l.length

/-- A concrete STT request on chat 7. -/
def req6 : STTRequest := ⟨[9], 7, 3, false⟩

/-- A converter that always fails to decode. -/
def cvErr : List Nat → ConvertResult := fun _ => ConvertResult.err

/-- A converter that always succeeds with empty WAV data. -/
def cvOk : List Nat → ConvertResult := fun _ => ConvertResult.ok []

/-- A WAV reader that always succeeds. -/
def rdOk : List Nat → ReadResult := fun _ => ReadResult.ok []

/-- A recognizer that cannot understand any audio. -/
def rcUnknown : List Nat → RecognizeResult := fun _ => RecognizeResult.unknownValue

/-- A recognizer whose backend is unreachable. -/
def rcReqErr : List Nat → RecognizeResult := fun _ => RecognizeResult.requestError

/-- A user table whose only row has `id = telegram_id = 5`. -/
def table10 : List User := [⟨5, 5, "p"⟩]

/-- A concrete conversation request from user 5 in chat 7. -/
def req10 : MessageRequest := ⟨5, "hello", false, 7, 9⟩

/-- An LLM backend that always answers "hi there". -/
def ollama0 : List ChatMsg → String := fun _ => "hi there"

/-! Helper lemmas shared by the claim theorems. -/

/-- Polling a result slot that is never populated exhausts its fuel and
reports the timeout, from any starting tick. -/
theorem pollFrom_none {α : Type} (job : Nat → Option α) (h : ∀ j, job j = none) :
    ∀ (fuel i : Nat), pollFrom job i fuel = Except.error "Job result timeout" := by
  intro fuel
  induction fuel with
  | zero => intro i; rfl
  | succ n ih =>
    intro i
    simp only [pollFrom, h i]
    exact ih (i + 1)

/-- A wait on a job whose result slot is never populated raises the
timeout after its `timeout * 10` polls. -/
theorem wait_none {α : Type} (job : Nat → Option α) (h : ∀ j, job j = none)
    (timeout : Nat) :
    wait_for_job_result job timeout = Except.error "Job result timeout" :=
  pollFrom_none job h (timeout * 10) 0

/-- When the conversation job's slot stays empty, the text reply of
`handle_text` is the fixed apology. -/
theorem handle_text_reply_of_none (store : List Message) (user : User)
    (text : String) (now : Nat) (convJob : Nat → Option String)
    (ttsJob : Nat → Option TTSResponse) (timeout : Nat)
    (h : ∀ i, convJob i = none) :
    textReply (handle_text store user text now convJob ttsJob timeout).1 =
      some apology_conv := by
  have hw := wait_none convJob h timeout
  cases htts : wait_for_job_result ttsJob timeout with
  | ok r => simp [handle_text, hw, htts, textReply]
  | error e => simp [handle_text, hw, htts, textReply]

/-- Each text turn enqueues exactly one conversation job, whatever the job
streams do. -/
theorem handle_text_one_enqueue (store : List Message) (user : User)
    (text : String) (now : Nat) (convJob : Nat → Option String)
    (ttsJob : Nat → Option TTSResponse) (timeout : Nat) :
    countConvEnqueues (handle_text store user text now convJob ttsJob timeout).1 = 1 := by
  cases hc : wait_for_job_result convJob timeout with
  | ok r =>
    cases htts : wait_for_job_result ttsJob timeout with
    | ok s => simp [handle_text, hc, htts, countConvEnqueues, isConvEnqueue]
    | error e => simp [handle_text, hc, htts, countConvEnqueues, isConvEnqueue]
  | error e =>
    cases htts : wait_for_job_result ttsJob timeout with
    | ok s => simp [handle_text, hc, htts, countConvEnqueues, isConvEnqueue]
    | error e2 => simp [handle_text, hc, htts, countConvEnqueues, isConvEnqueue]

/-- Each voice turn enqueues exactly one conversation job, whatever the job
streams do. -/
theorem handle_voice_one_enqueue (store : List Message) (user : User)
    (audio : List Nat) (now : Nat) (sttJob convJob : Nat → Option String)
    (ttsJob : Nat → Option TTSResponse) (timeout : Nat) :
    countConvEnqueues
      (handle_voice store user audio now sttJob convJob ttsJob timeout).1 = 1 := by
  cases hs : wait_for_job_result sttJob timeout with
  | ok t =>
    cases hc : wait_for_job_result convJob timeout with
    | ok r =>
      cases htts : wait_for_job_result ttsJob timeout with
      | ok s => simp [handle_voice, hs, hc, htts, countConvEnqueues, isConvEnqueue]
      | error e => simp [handle_voice, hs, hc, htts, countConvEnqueues, isConvEnqueue]
    | error e =>
      cases htts : wait_for_job_result ttsJob timeout with
      | ok s => simp [handle_voice, hs, hc, htts, countConvEnqueues, isConvEnqueue]
      | error e2 => simp [handle_voice, hs, hc, htts, countConvEnqueues, isConvEnqueue]
  | error e0 =>
    cases hc : wait_for_job_result convJob timeout with
    | ok r =>
      cases htts : wait_for_job_result ttsJob timeout with
      | ok s => simp [handle_voice, hs, hc, htts, countConvEnqueues, isConvEnqueue]
      | error e => simp [handle_voice, hs, hc, htts, countConvEnqueues, isConvEnqueue]
    | error e =>
      cases htts : wait_for_job_result ttsJob timeout with
      | ok s => simp [handle_voice, hs, hc, htts, countConvEnqueues, isConvEnqueue]
      | error e2 => simp [handle_voice, hs, hc, htts, countConvEnqueues, isConvEnqueue]

/-- Every message of a ConversationContext belongs to the queried user: the
query filters on `Message.user_id == user_id`. -/
theorem mem_context_user_id (store : List Message) (uid limit : Nat)
    (m : Message) (hm : m ∈ conversationContext store uid limit) :
    m.user_id = uid := by
  unfold conversationContext get_recent_messages at hm
  rw [List.mem_reverse] at hm
  have h1 : m ∈ List.insertionSort tsGe (store.filter fun x => x.user_id == uid) :=
    List.take_subset _ _ hm
  have h2 : m ∈ store.filter fun x => x.user_id == uid :=
    (List.perm_insertionSort tsGe _).mem_iff.mp h1
  exact eq_of_beq (List.mem_filter.mp h2).2

/-- A ConversationContext is ordered oldest-to-newest: the descending sort is
reversed by the handlers. -/
theorem context_sorted (store : List Message) (uid limit : Nat) :
    List.Pairwise (fun a b => a.timestamp ≤ b.timestamp)
      (conversationContext store uid limit) := by
  unfold conversationContext get_recent_messages
  rw [List.pairwise_reverse]
  have hs : List.Sorted tsGe
      (List.insertionSort tsGe (store.filter fun x => x.user_id == uid)) :=
    List.sorted_insertionSort tsGe _
  have ht := List.Pairwise.sublist (List.take_sublist limit _) hs
  exact ht.imp fun hab => hab

/-- Mapping `ChatMsg.content` over the positional role tagging recovers the
entries themselves. -/
theorem tail_content_enumFrom (l : List String) :
    ∀ n : Nat,
      ((List.enumFrom n l).map fun p =>
          (⟨if p.1 % 2 = 0 then "user" else "assistant", p.2⟩ : ChatMsg)).map
        ChatMsg.content = l := by
  induction l with
  | nil => intro n; rfl
  | cons x xs ih => intro n; simpa [List.enumFrom] using ih (n + 1)

/-- Mapping `ChatMsg.role` over the positional role tagging yields the
role pattern determined by the position indices alone. -/
theorem tail_role_enumFrom (l : List String) :
    ∀ n : Nat,
      ((List.enumFrom n l).map fun p =>
          (⟨if p.1 % 2 = 0 then "user" else "assistant", p.2⟩ : ChatMsg)).map
        ChatMsg.role =
      (List.range l.length).map fun i =>
        if (n + i) % 2 = 0 then "user" else "assistant" := by
  induction l with
  | nil => intro n; rfl
  | cons x xs ih =>
    intro n
    have harith : (fun i => if (n + 1 + i) % 2 = 0 then "user" else "assistant")
        = fun i => if (n + (i + 1)) % 2 = 0 then "user" else "assistant" := by
      funext i
      rw [Nat.add_assoc, Nat.add_comm 1 i]
    simp only [List.enumFrom, List.map_cons, List.length_cons,
      List.range_succ_eq_map, ih (n + 1), List.map_map]
    rw [Nat.add_zero, harith]
    rfl

/-! The claim theorems. -/

/-- Claim C1: in wait-and-relay mode, if the conversation job's result slot is
never populated, `wait_for_job_result` raises the timeout after its bounded
`timeout * 10` polls (0.1 s each, i.e. at most `timeout` seconds of polling,
never blocking indefinitely), `handle_text` replies with the fixed apology
string, and the turn enqueues exactly one conversation job — no retry. -/
theorem C1_text_timeout (store : List Message) (user : User) (text : String)
    (now : Nat) (convJob : Nat → Option String) (ttsJob : Nat → Option TTSResponse)
    (timeout : Nat) (h : ∀ i, convJob i = none) :
    wait_for_job_result convJob timeout = Except.error "Job result timeout" ∧
    textReply (handle_text store user text now convJob ttsJob timeout).1 =
      some apology_conv ∧
    countConvEnqueues (handle_text store user text now convJob ttsJob timeout).1 = 1 :=
  ⟨wait_none convJob h timeout,
   handle_text_reply_of_none store user text now convJob ttsJob timeout h,
   handle_text_one_enqueue store user text now convJob ttsJob timeout⟩

/-- Witness for C1 at a concrete never-completing job. -/
theorem C1_text_timeout_witness :
    textReply (handle_text [] u1 "hi" 0 noneStream noneTts 60).1 =
      some apology_conv :=
  (C1_text_timeout [] u1 "hi" 0 noneStream noneTts 60 fun _ => rfl).2.1

set_option maxRecDepth 8000 in
/-- Counterexample to claim C2 as stated: at a concrete voice turn whose STT
job never completes, `handle_voice` still enqueues a conversation job on the
default queue — its content is the STT apology — so the turn is not aborted
and an LLM job is enqueued after the STT timeout. -/
theorem C2_counterexample :
    BotAction.enqueueDefault ⟨1, stt_apology, false, 0, 0⟩ u1.system_prompt
        ["User: " ++ stt_apology] ∈
      (handle_voice [] u1 [0] 100 noneStream noneStream noneTts 60).1 := by
  decide

/-- Claim C2 as amended: if the STT job times out, `handle_voice` substitutes
the fixed apology string for the transcript and continues the turn — the
apology is persisted as a from-user message and exactly one conversation job
is enqueued with the apology as its content; the turn is not aborted. -/
theorem C2_voice_stt_timeout (store : List Message) (user : User)
    (audio : List Nat) (now : Nat) (sttJob convJob : Nat → Option String)
    (ttsJob : Nat → Option TTSResponse) (timeout : Nat)
    (h : ∀ i, sttJob i = none) :
    BotAction.enqueueDefault ⟨user.id, stt_apology, false, 0, 0⟩
        user.system_prompt
        ((conversationContext (save_message store user.id stt_apology true now)
            user.id 5).map fmtMsg) ∈
      (handle_voice store user audio now sttJob convJob ttsJob timeout).1 ∧
    countConvEnqueues
      (handle_voice store user audio now sttJob convJob ttsJob timeout).1 = 1 ∧
    (⟨user.id, stt_apology, now, true, false⟩ : Message) ∈
      (handle_voice store user audio now sttJob convJob ttsJob timeout).2 := by
  have hs := wait_none sttJob h timeout
  refine ⟨?_, handle_voice_one_enqueue store user audio now sttJob convJob ttsJob timeout, ?_⟩
  · cases hc : wait_for_job_result convJob timeout with
    | ok r =>
      cases htts : wait_for_job_result ttsJob timeout with
      | ok s => simp [handle_voice, hs, hc, htts]
      | error e => simp [handle_voice, hs, hc, htts]
    | error e =>
      cases htts : wait_for_job_result ttsJob timeout with
      | ok s => simp [handle_voice, hs, hc, htts]
      | error e2 => simp [handle_voice, hs, hc, htts]
  · cases hc : wait_for_job_result convJob timeout with
    | ok r => simp [handle_voice, hs, hc, save_message]
    | error e => simp [handle_voice, hs, hc, save_message]

/-- Witness for C2 (amended) at a concrete never-completing STT job. -/
theorem C2_voice_stt_timeout_witness :
    countConvEnqueues
      (handle_voice [] u1 [1] 100 noneStream noneStream noneTts 60).1 = 1 :=
  (C2_voice_stt_timeout [] u1 [1] 100 noneStream noneStream noneTts 60
    fun _ => rfl).2.1

/-- Counterexample to claim C3 as stated: with one stored message whose reset
flag is true and whose timestamp 0 lies outside any one-hour window ending at
now = 7200, the ConversationContext still contains it — `get_recent_messages`
applies no reset-flag filter and no time-window filter. -/
theorem C3_counterexample :
    (∃ m ∈ conversationContext cstore3 1 5, m.is_reset = true) ∧
    (∃ m ∈ conversationContext cstore3 1 5, m.timestamp + 3600 < 7200) := by
  decide

/-- Claim C3 as amended: the ConversationContext built for a user's next turn
contains only that user's messages, is capped at the configured count, and is
ordered oldest-to-newest; no reset-flag or time-window filtering occurs (see
the counterexample). -/
theorem C3_context_shape (store : List Message) (uid limit : Nat) :
    (conversationContext store uid limit).length ≤ limit ∧
    (∀ m ∈ conversationContext store uid limit, m.user_id = uid) ∧
    List.Pairwise (fun a b => a.timestamp ≤ b.timestamp)
      (conversationContext store uid limit) := by
  refine ⟨?_, fun m hm => mem_context_user_id store uid limit m hm,
    context_sorted store uid limit⟩
  simp only [conversationContext, get_recent_messages, List.length_reverse,
    List.length_take]
  exact min_le_left _ _

/-- Witness for C3 (amended) at a concrete store. -/
theorem C3_context_shape_witness :
    (⟨1, "a", 0, true, false⟩ : Message).user_id = 1 :=
  (C3_context_shape [⟨1, "a", 0, true, false⟩] 1 5).2.1 _ (by decide)

/-- Claim C8: for distinct users A and B, the ConversationContext built for A
contains only messages with `user_id = A` and never a message belonging
to B. -/
theorem C8_isolation (store : List Message) (A B limit : Nat) (h : A ≠ B) :
    (∀ m ∈ conversationContext store A limit, m.user_id = A) ∧
    (∀ m ∈ conversationContext store A limit, m.user_id ≠ B) := by
  refine ⟨fun m hm => mem_context_user_id store A limit m hm, fun m hm => ?_⟩
  rw [mem_context_user_id store A limit m hm]
  exact h

/-- Witness for C8 at a store holding messages of users 1 and 2. -/
theorem C8_isolation_witness :
    (⟨1, "a", 0, true, false⟩ : Message).user_id ≠ 2 :=
  (C8_isolation store8 1 2 5 (by decide)).2 _ (by decide)

/-- Claim C9: both `_process_message` and its `process_message` wrapper
return `None`, so an RQ conversation job's result slot — `None` until the job
finishes, then the return value — never satisfies `job.result is not None`;
hence in the wait-and-relay text path the reply delivered to the user is
always the apology string and never the worker's generated text, whenever the
job finishes. -/
theorem C9_conv_result_always_none (table : List User)
    (ollamaF : List ChatMsg → String) (synth : String → List Nat)
    (decodeMs : List Nat → Nat) (request : MessageRequest) (sp : String)
    (ctx : List String) (ptime : String) :
    (process_message table ollamaF synth decodeMs request sp ctx ptime).ret = none ∧
    ∀ (doneAt : Nat) (store : List Message) (user : User) (text : String)
      (now : Nat) (ttsJob : Nat → Option TTSResponse) (timeout : Nat),
      textReply (handle_text store user text now
          (jobResultStream
            (process_message table ollamaF synth decodeMs request sp ctx ptime).ret
            doneAt)
          ttsJob timeout).1 = some apology_conv := by
  refine ⟨rfl, ?_⟩
  intro doneAt store user text now ttsJob timeout
  apply handle_text_reply_of_none
  intro i
  simp [jobResultStream, process_message]

/-- Claim C4: the worker's prompt assembly yields exactly one system entry
first (the tail's roles are only "user"/"assistant"), followed by the context
entries with the new input appended last — labeled as a transcription turn
when `is_audio` and as a plain user turn otherwise — whose roles alternate by
position index (even index → "user", odd → "assistant"); the entries are bare
strings at this stage, so no stored directionality flag is consulted. -/
theorem C4_prompt_assembly (r : MessageRequest) (sp : String)
    (ctx : List String) :
    (assembleMessages r sp ctx).head? = some ⟨"system", sp⟩ ∧
    (assembleMessages r sp ctx).length = ctx.length + 2 ∧
    (assembleMessages r sp ctx).tail.map ChatMsg.content =
      ctx ++ [newInputEntry r] ∧
    (assembleMessages r sp ctx).tail.map ChatMsg.role =
      (List.range (ctx.length + 1)).map
        (fun i => if i % 2 = 0 then "user" else "assistant") ∧
    "system" ∉ (assembleMessages r sp ctx).tail.map ChatMsg.role ∧
    (∀ uid c chat mid,
      newInputEntry ⟨uid, c, true, chat, mid⟩ =
        "User: [The following is a transcription of an audio message from the user] "
          ++ c) ∧
    (∀ uid c chat mid, newInputEntry ⟨uid, c, false, chat, mid⟩ = "User: " ++ c) := by
  have hcontent : (assembleMessages r sp ctx).tail.map ChatMsg.content =
      ctx ++ [newInputEntry r] := by
    simpa [assembleMessages, List.enum] using
      tail_content_enumFrom (ctx ++ [newInputEntry r]) 0
  have hrole : (assembleMessages r sp ctx).tail.map ChatMsg.role =
      (List.range (ctx.length + 1)).map
        (fun i => if i % 2 = 0 then "user" else "assistant") := by
    have h0 := tail_role_enumFrom (ctx ++ [newInputEntry r]) 0
    simpa [assembleMessages, List.enum, List.length_append] using h0
  refine ⟨rfl, ?_, hcontent, hrole, ?_, fun uid c chat mid => rfl,
    fun uid c chat mid => rfl⟩
  · simp [assembleMessages, List.length_append]
  · rw [hrole]
    intro hmem
    rcases List.mem_map.mp hmem with ⟨i, _, hEq⟩
    by_cases hp : i % 2 = 0
    · rw [if_pos hp] at hEq
      exact absurd hEq (by decide)
    · rw [if_neg hp] at hEq
      exact absurd hEq (by decide)

/-- Claim C5: for a non-empty response text the worker's TTS stage runs
`text_to_speech`, whose duration is derived from decoding the generated audio
(`len(audio) / 1000.0` seconds) and is strictly positive whenever the decoded
audio is non-trivial; for the empty text the stage skips synthesis entirely
and signals "no audio produced" as `none`. -/
theorem C5_tts (synth : String → List Nat) (decodeMs : List Nat → Nat)
    (text : String) (hpos : 0 < decodeMs (synth text)) (hne : text ≠ "") :
    ttsStage synth decodeMs text =
      some (text_to_speech synth decodeMs ⟨text⟩) ∧
    (text_to_speech synth decodeMs ⟨text⟩).duration =
      (decodeMs (synth text) : ℚ) / 1000 ∧
    0 < (text_to_speech synth decodeMs ⟨text⟩).duration ∧
    ttsStage synth decodeMs "" = none := by
  refine ⟨by simp [ttsStage, hne], rfl, ?_, by simp [ttsStage]⟩
  have h0 : (0 : ℚ) < (decodeMs (synth text) : ℚ) := by exact_mod_cast hpos
  exact div_pos h0 (by norm_num : (0 : ℚ) < 1000)

/-- Witness for C5 at a concrete synthesizer and decoder. -/
theorem C5_tts_witness :
    0 < (text_to_speech synth1 decode1 ⟨"hi"⟩).duration :=
  (C5_tts synth1 decode1 "hi" (by decide) (by decide)).2.2.1

/-- Counterexample to claim C6 as stated: at concrete inputs, the
decode-failure run and the backend-unreachable run of the STT worker send the
very same user-facing message text — two of the three failure modes are not
distinct. -/
theorem C6_counterexample :
    speech_to_text cvErr rdOk rcUnknown req6 =
      [SttAction.sendMessage 7 "Sorry, there was an error processing the audio."] ∧
    speech_to_text cvOk rdOk rcReqErr req6 =
      [SttAction.saveProcessingTime 7 "audio_conversion",
       SttAction.sendMessage 7 "Sorry, there was an error processing the audio."] := by
  decide

/-- Claim C6 as amended: decode failure yields `decode_error_msg` and aborts
the turn before any inference job; unintelligible audio yields the distinct
`unknown_audio_msg`; but backend-unreachable yields the very same message
text as decode failure, so only two distinct texts cover the three failure
modes. -/
theorem C6_stt_messages (convert : List Nat → ConvertResult)
    (readAudio : List Nat → ReadResult)
    (recognize : List Nat → RecognizeResult) (req : STTRequest) :
    (convert req.audio_file = ConvertResult.err →
      speech_to_text convert readAudio recognize req =
        [SttAction.sendMessage req.chat_id decode_error_msg] ∧
      ∀ mr, SttAction.processMessage mr ∉
        speech_to_text convert readAudio recognize req) ∧
    (∀ wav audio, convert req.audio_file = ConvertResult.ok wav →
      readAudio wav = ReadResult.ok audio →
      recognize audio = RecognizeResult.unknownValue →
      speech_to_text convert readAudio recognize req =
        [SttAction.saveProcessingTime req.chat_id "audio_conversion",
         SttAction.sendMessage req.chat_id unknown_audio_msg]) ∧
    (∀ wav audio, convert req.audio_file = ConvertResult.ok wav →
      readAudio wav = ReadResult.ok audio →
      recognize audio = RecognizeResult.requestError →
      speech_to_text convert readAudio recognize req =
        [SttAction.saveProcessingTime req.chat_id "audio_conversion",
         SttAction.sendMessage req.chat_id request_error_msg]) ∧
    decode_error_msg ≠ unknown_audio_msg ∧
    unknown_audio_msg ≠ request_error_msg ∧
    decode_error_msg = request_error_msg := by
  refine ⟨?_, ?_, ?_, by decide, by decide, rfl⟩
  · intro hcv
    constructor
    · simp [speech_to_text, hcv]
    · intro mr
      simp [speech_to_text, hcv]
  · intro wav audio hcv hrd hrc
    simp [speech_to_text, hcv, hrd, hrc]
  · intro wav audio hcv hrd hrc
    simp [speech_to_text, hcv, hrd, hrc]

/-- Witness for C6 (amended) at a concrete failing converter. -/
theorem C6_stt_messages_witness :
    speech_to_text cvErr rdOk rcReqErr req6 =
      [SttAction.sendMessage 7 decode_error_msg] :=
  ((C6_stt_messages cvErr rdOk rcReqErr req6).1 rfl).1

/-- Counterexample to claim C7 as stated: for a concrete user whose stored
prompt is "abc", invoking set-prompt with no arguments mutates the stored
prompt (to the empty string) and replies with the update notice, which does
not show "abc". -/
theorem C7_counterexample :
    (set_system_prompt u7 []).1.system_prompt ≠ u7.system_prompt ∧
    (set_system_prompt u7 []).2 = "System prompt updated to: " := by
  decide

/-- Claim C7 as amended: invoking set-prompt with no arguments overwrites the
user's stored system prompt with the empty string — the row is mutated — and
the reply is the bare update notice, not the previously stored prompt. -/
theorem C7_set_prompt_empty_args (u : User) :
    set_system_prompt u [] =
      (⟨u.id, u.telegram_id, ""⟩, "System prompt updated to: ") :=
  rfl

/-- Claim C10: the worker persists the assistant reply only when some `User`
row's `telegram_id` equals the request's `user_id` (the reply is still sent
to the chat either way), and `handle_text` fills that field with the internal
database id `user.id` — so worker-side persistence depends on the two
identifiers coinciding. -/
theorem C10_persistence (table : List User) (ollamaF : List ChatMsg → String)
    (synth : String → List Nat) (decodeMs : List Nat → Nat)
    (request : MessageRequest) (sp : String) (ctx : List String)
    (ptime : String) :
    (∀ u, table.find? (fun v => v.telegram_id == request.user_id) = some u →
      WorkerAction.saveMessage u.id (ollamaF (assembleMessages request sp ctx))
          false ∈
        (process_message table ollamaF synth decodeMs request sp ctx ptime).actions) ∧
    (table.find? (fun v => v.telegram_id == request.user_id) = none →
      ∀ uid c b, WorkerAction.saveMessage uid c b ∉
        (process_message table ollamaF synth decodeMs request sp ctx ptime).actions) ∧
    WorkerAction.sendMessage request.chat_id
        (response_with_time (ollamaF (assembleMessages request sp ctx)) ptime) ∈
      (process_message table ollamaF synth decodeMs request sp ctx ptime).actions ∧
    (∀ user text, (handle_text_request user text).user_id = user.id) := by
  refine ⟨?_, ?_, ?_, fun user text => rfl⟩
  · intro u hu
    cases hts : ttsStage synth decodeMs (ollamaF (assembleMessages request sp ctx)) with
    | none => simp [process_message, hu, hts]
    | some tr => simp [process_message, hu, hts]
  · intro hnone uid c b
    cases hts : ttsStage synth decodeMs (ollamaF (assembleMessages request sp ctx)) with
    | none => simp [process_message, hnone, hts]
    | some tr => simp [process_message, hnone, hts]
  · cases hfind : table.find? (fun v => v.telegram_id == request.user_id) with
    | none =>
      cases hts : ttsStage synth decodeMs (ollamaF (assembleMessages request sp ctx)) with
      | none => simp [process_message, hfind, hts]
      | some tr => simp [process_message, hfind, hts]
    | some u =>
      cases hts : ttsStage synth decodeMs (ollamaF (assembleMessages request sp ctx)) with
      | none => simp [process_message, hfind, hts]
      | some tr => simp [process_message, hfind, hts]

/-- Witness for C10 at a table whose identifiers coincide. -/
theorem C10_persistence_witness :
    WorkerAction.saveMessage 5 "hi there" false ∈
      (process_message table10 ollama0 synth1 decode1 req10 "p" [] "0.1").actions :=
  (C10_persistence table10 ollama0 synth1 decode1 req10 "p" [] "0.1").1
    ⟨5, 5, "p"⟩ (by decide)

end Aibot
